import Mathlib

/-!
Shallow embedding of the Rocket CLI proxy (request-admission gateway):
identity resolution, tiered rate limiting, budget tracking, credential
rotation, analytics/alerting and the OAuth state machine, together with
theorems checking the specification's claims against this embedding.

Sources embedded: the generate endpoint (`POST /api/v1/generate`), the
limits endpoint (`GET /api/v1/limits`), `lib/key-rotation.ts`,
`lib/analytics.ts`, `lib/auth.ts` and the OAuth callback handler.
-/

namespace Rocket

/-! ## JavaScript primitives used by the source

The proxy code runs on a JS edge runtime.  The helpers below embed the
exact JS string/number operations the source uses.  JS strings are
UTF-16; all strings the claims exercise are ASCII, where Lean's
code-point view coincides with JS code units. -/

/-- JS 32-bit signed-integer coercion (`ToInt32`), used by `x & x` and `<<`. -/
def toInt32 (n : Int) : Int :=
  (n + 2 ^ 31) % 2 ^ 32 - 2 ^ 31

/-- One step of the source's `hashString` loop:
`hash = (hash << 5) - hash + char; hash = hash & hash`.
`hash << 5` coerces to int32 and wraps; the sum is exact in doubles and
`hash & hash` coerces the result back to int32. -/
def hashStep (h : Int) (c : Nat) : Int :=
  toInt32 (toInt32 (32 * h) - h + c)

/-- Digit character for `Number.prototype.toString(36)`: `0-9` then `a-z`. -/
def base36Digit (n : Nat) : Char :=
  if n < 10 then Char.ofNat (48 + n) else Char.ofNat (87 + n)

/-- Base-36 digits of `n`, most significant first (fuel-structural so the
kernel can evaluate it; `fuel ≥ n` suffices since `n / 36 < n` for `n > 0`). -/
def natToBase36Core : Nat → Nat → List Char
  | 0, _ => []
  | _ + 1, 0 => []
  | fuel + 1, n => natToBase36Core fuel (n / 36) ++ [base36Digit (n % 36)]

/-- JS `Number.prototype.toString(36)` for a non-negative integer. -/
def natToBase36 (n : Nat) : String :=
  if n = 0 then "0" else String.mk (natToBase36Core (n + 1) n)

/-- The source's `hashString` ("Simple string hash for privacy"), duplicated
verbatim in the generate and limits endpoints:
iterate `hashStep` over the char codes, then `Math.abs(hash).toString(36)`. -/
def hashString (s : String) : String :=
  natToBase36 (s.toList.foldl (fun h c => hashStep h c.toNat) 0).natAbs

/-- JS `s.split(",")[0]`: the prefix before the first comma
(`split` always yields at least one field). -/
def firstCommaField (s : String) : String :=
  String.mk (s.toList.takeWhile (fun c => c ≠ ','))

/-- JS `String.prototype.trim`. -/
def jsTrim (s : String) : String :=
  String.mk (((s.toList.dropWhile Char.isWhitespace).reverse.dropWhile
    Char.isWhitespace).reverse)

/-- JS `String.prototype.startsWith`. -/
def jsStartsWith (s pre : String) : Bool :=
  pre.toList.isPrefixOf s.toList

/-- JS `String.prototype.slice(n)` for a non-negative start index. -/
def jsSlice (s : String) (n : Nat) : String :=
  String.mk (s.toList.drop n)

/-! ## Identity resolution (`getUserIdentifier`)

Embeds the `getUserIdentifier` function that appears (identically) in the
generate and limits endpoints. -/

/-- The request headers `getUserIdentifier` consults; `none` means the
header is absent (`headers.get` returned `null`). -/
structure Headers where
  authorization : Option String := none
  xGithubUser : Option String := none
  xForwardedFor : Option String := none
  xRealIp : Option String := none
  deriving Repr, DecidableEq

inductive Tier where
  | anonymous
  | authenticated
  deriving Repr, DecidableEq

structure Identity where
  userId : String
  tier : Tier
  deriving Repr, DecidableEq

/-- The `authHeader?.startsWith("Bearer ")` guard: the bearer token when the
Authorization header is present and has the Bearer scheme. -/
def bearerToken (h : Headers) : Option String :=
  match h.authorization with
  | some a => if jsStartsWith a "Bearer " then some (jsSlice a 7) else none
  | none => none

/-- The IP fallback expression
`forwardedFor?.split(",")[0].trim() || realIp || "unknown"`
(JS `||` treats the empty string as falsy). -/
def fallbackIp (h : Headers) : String :=
  let fwd := match h.xForwardedFor with
    | some s => jsTrim (firstCommaField s)
    | none => ""
  if fwd ≠ "" then fwd
  else match h.xRealIp with
    | some r => if r ≠ "" then r else "unknown"
    | none => "unknown"

/-- Function `getUserIdentifier` from the generate endpoint (and, identically, the
limits endpoint): Bearer token → `github:<hash(token)>` authenticated
(the token is hashed, with a source TODO to validate it later);
else non-empty `X-GitHub-User` → `github:<user>` authenticated;
else hashed fallback IP → `ip:<hash>` anonymous. -/
def getUserIdentifier (h : Headers) : Identity :=
  match bearerToken h with
  | some token => { userId := "github:" ++ hashString token, tier := .authenticated }
  | none =>
    match h.xGithubUser with
    | some u =>
      if u ≠ "" then { userId := "github:" ++ u, tier := .authenticated }
      else { userId := "ip:" ++ hashString (fallbackIp h), tier := .anonymous }
    | none => { userId := "ip:" ++ hashString (fallbackIp h), tier := .anonymous }

/-! ## Rate limiter

Both endpoints instantiate the Upstash `Ratelimit.fixedWindow` limiters
(anonymous 5/day, authenticated 25/day).  The limiter itself is library
code outside this repository; it is modelled here from its documented
fixed-window algorithm: `limit()` atomically increments the caller's
counter for the current window and reports the post-increment state,
`getRemaining()` reads the counter without consuming. -/

/-- Per-identifier counters of the current fixed window in the shared store. -/
structure RLStore where
  counters : List (String × Nat) := []
  deriving Repr, DecidableEq

def rlCount (st : RLStore) (key : String) : Nat :=
  ((st.counters.find? (fun p => p.1 = key)).map (fun p => p.2)).getD 0

def rlSetCount (st : RLStore) (key : String) (n : Nat) : RLStore :=
  if (st.counters.find? (fun p => p.1 = key)).isSome then
    ⟨st.counters.map (fun p => if p.1 = key then (p.1, n) else p)⟩
  else ⟨st.counters ++ [(key, n)]⟩

/-- Result shape of the limiter calls as destructured by the endpoints. -/
structure RLResult where
  success : Bool
  limit : Nat
  remaining : Nat
  reset : Nat
  deriving Repr, DecidableEq

/-- Fixed-window `limit()` (external library model): atomically increment the
identifier's window counter; the request succeeds iff the post-increment count
is within the limit and `remaining` is what is left after this very request
(clamped at 0).  `reset` is the end of the current window. -/
def ratelimitLimit (limit : Nat) (reset : Nat) (keyStem id : String) (st : RLStore) :
    RLResult × RLStore :=
  let key := keyStem ++ ":" ++ id
  let used := rlCount st key + 1
  ({ success := used ≤ limit, limit := limit, remaining := limit - used, reset := reset },
   rlSetCount st key used)

/-- Non-consuming `getRemaining()` (external library model): read the current
window counter without modifying it. -/
def ratelimitGetRemaining (limit : Nat) (reset : Nat) (keyStem id : String) (st : RLStore) :
    RLResult × RLStore :=
  let used := rlCount st (keyStem ++ ":" ++ id)
  ({ success := limit - used > 0, limit := limit, remaining := limit - used, reset := reset },
   st)

/-! ## Budget check (generate endpoint) -/

/-- Function `checkBudgetExceeded` from the generate endpoint: read today's cost counter
(stored ×100000) and compare `costRaw / 100000 ≥ budgetCap`.  `budgetReadOk =
false` models the shared store being unreachable (the `redis.get` throwing): the
`catch` block logs "Failed to check budget" and returns `false`. -/
def checkBudgetExceeded (budgetCap : ℚ) (budgetReadOk : Bool) (costRaw : Nat) : Bool :=
  if budgetReadOk then decide (mkRat costRaw 100000 ≥ budgetCap) else false

/-! ## Credential pool (`lib/key-rotation.ts`) -/

/-- One upstream credential with its in-memory health state (`GeminiKey`).
`lastUsed` is the `Date` timestamp of the last successful use. -/
structure GeminiKey where
  name : String
  isHealthy : Bool := true
  lastError : Option String := none
  lastUsed : Option Nat := none
  requestCount : Nat := 0
  deriving Repr, DecidableEq

/-- Order key of the selection comparator: never-used credentials sort before
every timestamp, otherwise older `lastUsed` first. -/
def luOrd : Option Nat → Nat
  | none => 0
  | some t => t + 1

/-- Binary step of taking the least-recently-used credential; ties keep the
earlier element, matching `sort(cmp)[0]` with the source's comparator. -/
def olderKey (a b : GeminiKey) : GeminiKey :=
  if luOrd b.lastUsed < luOrd a.lastUsed then b else a

/-- JS `sort(cmp)[0]` of a nonempty list under the source's recency comparator:
the first minimal element by `luOrd` of `lastUsed`. -/
def oldestFrom (a : GeminiKey) (ks : List GeminiKey) : GeminiKey :=
  ks.foldl olderKey a

/-- The in-place `oldestError.isHealthy = true` mutation seen through the pool. -/
def setHealthyByName (name : String) (ks : List GeminiKey) : List GeminiKey :=
  ks.map (fun k => if k.name = name then { k with isHealthy := true } else k)

/-- Source `markKeyUnhealthy(name, error)`. -/
def markKeyUnhealthy (ks : List GeminiKey) (name : String) (err : String) : List GeminiKey :=
  ks.map (fun k =>
    if k.name = name then { k with isHealthy := false, lastError := some err } else k)

/-- Replace the credential called `name` (the in-place success mutation). -/
def updateKey (ks : List GeminiKey) (name : String) (k' : GeminiKey) : List GeminiKey :=
  ks.map (fun k => if k.name = name then k' else k)

/-- Function `selectKey()`: no keys → none; some healthy key → least-recently-used
healthy key (pool untouched); all unhealthy → least-recently-used key of the
whole pool, optimistically reset to healthy (both as returned and in the pool).
Returns the selected key together with the updated pool. -/
def selectKey (keys : List GeminiKey) : Option GeminiKey × List GeminiKey :=
  match keys with
  | [] => (none, [])
  | k :: ks =>
    match (k :: ks).filter (fun x => x.isHealthy) with
    | [] =>
      let chosen := oldestFrom k ks
      (some { chosen with isHealthy := true }, setHealthyByName chosen.name (k :: ks))
    | h :: hs => (some (oldestFrom h hs), k :: ks)

/-! ## Error classification and the retry loop (`generateWithRotation`) -/

/-- JS `String.prototype.toLowerCase` (ASCII-faithful). -/
def jsToLower (s : String) : String :=
  String.mk (s.toList.map Char.toLower)

/-- Whether `sub` occurs contiguously in `l`. -/
def containsSub (sub : List Char) : List Char → Bool
  | [] => sub.isEmpty
  | c :: t => sub.isPrefixOf (c :: t) || containsSub sub t

/-- JS `String.prototype.includes`. -/
def jsIncludes (s sub : String) : Bool :=
  containsSub sub.toList s.toList

inductive ErrorClass where
  | rateLimited
  | invalidKey
  | other
  deriving Repr, DecidableEq

/-- The classification branches of `generateWithRotation`'s catch block, which
lower-cases the error message and sniffs substrings: quota/rate-limit words →
retryable (mark unhealthy, continue); invalid-credential words → same action;
anything else → rethrow immediately. -/
def classifyError (msg : String) : ErrorClass :=
  let m := jsToLower msg
  if jsIncludes m "rate limit" || jsIncludes m "quota" ||
      jsIncludes m "resource exhausted" || jsIncludes m "429" then .rateLimited
  else if jsIncludes m "api key" || jsIncludes m "unauthorized" ||
      jsIncludes m "403" || jsIncludes m "invalid" then .invalidKey
  else .other

/-- Upstream-reported token usage (`usageMetadata`, defaulted to 0 when absent). -/
structure TokenUsage where
  promptTokens : Nat := 0
  completionTokens : Nat := 0
  totalTokens : Nat := 0
  deriving Repr, DecidableEq

/-- What one upstream (`generateWithKey`) call produces on success. -/
structure GenSuccess where
  text : String
  usage : TokenUsage := {}
  deriving Repr, DecidableEq

/-- Structure `GenerateResult`: the model id is the constant "gemini-1.5-flash" and
`keyUsed` is the name of the credential that served the call. -/
structure GenResult where
  text : String
  model : String
  usage : TokenUsage
  keyUsed : String
  deriving Repr, DecidableEq

/-- The bounded retry loop of `generateWithRotation`.  `upstream i` is the
outcome of the i-th upstream call (the environment), `time i` the clock
(`new Date()`) at that attempt, `attempt` the loop counter and `fuel` the
remaining attempts (`maxRetries − attempt`); `lastError` threads the last
observed failure.  On success the used credential is marked healthy with
updated `lastUsed`/`requestCount`; a retryable failure marks it unhealthy and
continues; any other failure is thrown immediately; exhausted fuel throws
`lastError` (or "All API keys exhausted" if none was recorded). -/
def rotationLoop (upstream : Nat → Except String GenSuccess) (time : Nat → Nat) :
    Nat → Nat → List GeminiKey → Option String → Except String GenResult × List GeminiKey
  | _, 0, keys, lastError => (.error (lastError.getD "All API keys exhausted"), keys)
  | attempt, fuel + 1, keys, _lastError =>
    match selectKey keys with
    | (none, keys') => (.error "No Gemini API keys configured", keys')
    | (some k, keys') =>
      match upstream attempt with
      | .ok s =>
        let k' := { k with
          lastUsed := some (time attempt)
          requestCount := k.requestCount + 1
          isHealthy := true
          lastError := none }
        (.ok { text := s.text, model := "gemini-1.5-flash", usage := s.usage, keyUsed := k.name },
         updateKey keys' k.name k')
      | .error msg =>
        match classifyError msg with
        | .rateLimited =>
          rotationLoop upstream time (attempt + 1) fuel
            (markKeyUnhealthy keys' k.name "Rate limited") (some msg)
        | .invalidKey =>
          rotationLoop upstream time (attempt + 1) fuel
            (markKeyUnhealthy keys' k.name "Invalid API key") (some msg)
        | .other => (.error msg, keys')

/-- Function `generateWithRotation`: the retry loop with `maxRetries = 3`. -/
def generateWithRotation (upstream : Nat → Except String GenSuccess) (time : Nat → Nat)
    (keys : List GeminiKey) : Except String GenResult × List GeminiKey :=
  rotationLoop upstream time 0 3 keys none

/-! ## Analytics and alerting (`lib/analytics.ts`) -/

/-- Decimal digits, most significant first (fuel-structural). -/
def natToDecCore : Nat → Nat → List Char
  | 0, _ => []
  | _ + 1, 0 => []
  | fuel + 1, n => natToDecCore fuel (n / 10) ++ [base36Digit (n % 10)]

/-- JS `Number.prototype.toString()` for a non-negative integer. -/
def natToDecString (n : Nat) : String :=
  if n = 0 then "0" else String.mk (natToDecCore (n + 1) n)

/-- JS `Number.prototype.toString()` for an integer. -/
def intToDecString (i : Int) : String :=
  if i < 0 then "-" ++ natToDecString i.natAbs else natToDecString i.natAbs

/-- Exact product of two rationals, computed on numerators and denominators so
the kernel can evaluate it (`Rat.mul` is irreducible); `qmul_eq_mul` below
proves it equal to `a * b`. -/
def qmul (a b : ℚ) : ℚ :=
  mkRat (a.num * b.num) (a.den * b.den)

/-- JS `Math.round` (round half toward +∞), computed as the floor of
`(2·num + den) / (2·den)` with integer division so the kernel can evaluate it;
`roundJS_eq_floor` below proves it equal to `⌊q + 1/2⌋`. -/
def roundJS (q : ℚ) : Int :=
  (2 * q.num + q.den) / (2 * (q.den : Int))

/-- Function `calculateCost(tokens)`: `(tokens / 1000) * PRICING.avgCostPer1KTokens`
with the configured rate `0.0001875` $ per 1K tokens — the exact rational
`tokens · 1875 / 10^10`, built with `mkRat` so the kernel can evaluate it;
`calculateCost_eq` below proves it equal to the textbook form. -/
def calculateCost (tokens : Nat) : ℚ :=
  mkRat (tokens * 1875) 10000000000

/-- Today's analytics counters under `rocket:analytics:<date>:*`, plus the
alert-dedup marker keys (`rocket:alert:*`, key ↦ absolute expiry instant in
seconds).  The 7-day TTL refresh on the day's counters has no bearing on any
claim and is not tracked. -/
structure Analytics where
  requests : Nat := 0
  tokens : Nat := 0
  costRaw : Nat := 0
  tierAnonymous : Nat := 0
  tierAuthenticated : Nat := 0
  users : List (String × Nat) := []
  alertMarkers : List (String × Nat) := []
  deriving Repr, DecidableEq

/-- Field `getTodayMetrics().estimatedCost`: the stored integer counter divided back
(`costRaw / 100000`, as the exact rational `mkRat costRaw 100000`;
`estimatedCost_eq` below gives the division form). -/
def estimatedCost (a : Analytics) : ℚ :=
  mkRat a.costRaw 100000

/-- Redis `zincrby(users, 1, userId)`. -/
def bumpScore (users : List (String × Nat)) (id : String) : List (String × Nat) :=
  if (users.find? (fun p => p.1 = id)).isSome then
    users.map (fun p => if p.1 = id then (p.1, p.2 + 1) else p)
  else users ++ [(id, 1)]

inductive AlertKind where
  | critical
  | warning
  deriving Repr, DecidableEq

/-- One alert message: the template used (critical = "Budget Alert!", warning =
"Budget Warning") together with every value interpolated into its text.  Two
alert messages are the same string iff they agree as `AlertMessage`s. -/
structure AlertMessage where
  kind : AlertKind
  cap : ℚ
  spend : ℚ
  requests : Nat := 0
  tokens : Nat := 0
  deriving Repr, DecidableEq

/-- The dedup marker key
`rocket:alert:<day>:<first 20 base64 chars of the message>`.  Twenty base64
characters encode exactly the first 15 UTF-8 bytes of the message, and both
templates open with a constant emoji-and-title prefix of more than 15 bytes
("🚨 Rocket CLI Proxy Budget Alert!" resp. "⚠️ Rocket CLI Proxy Budget
Warning"), so the truncated key depends only on the template and the day,
never on the interpolated numbers.  The two possible 20-char values are the
base64 encodings of those 15-byte prefixes. -/
def alertDedupKey (day : String) (m : AlertMessage) : String :=
  "rocket:alert:" ++ day ++ ":" ++
    (match m.kind with
     | .critical => "8J+aqCBSb2NrZXQgQ0xJ"
     | .warning => "4pqg77iPIFJvY2tldCBD")

/-- Whether the store still returns a value for the marker key (`get` before the
1-hour TTL has elapsed). -/
def markerLive (markers : List (String × Nat)) (now : Nat) (key : String) : Bool :=
  markers.any (fun p => p.1 = key && now < p.2)

/-- Redis `set` of the marker key to "1" with a 3600-second TTL. -/
def setMarker (markers : List (String × Nat)) (key : String) (expiry : Nat) :
    List (String × Nat) :=
  if (markers.find? (fun p => p.1 = key)).isSome then
    markers.map (fun p => if p.1 = key then (p.1, expiry) else p)
  else markers ++ [(key, expiry)]

/-- Delivery environment for alerts: whether `SLACK_WEBHOOK_URL` is configured,
whether the webhook POST succeeds, and today's date key. -/
structure AlertEnv where
  webhookConfigured : Bool := true
  fetchOk : Bool := true
  day : String := "2025-01-01"

/-- Function `sendSlackAlert(message)`: return immediately when no webhook is configured
or when the dedup marker for this message is still live; otherwise POST the
message and, when the POST succeeded, set the marker with a 1-hour TTL (a
failed delivery is logged and swallowed, leaving no marker).  The Bool reports
whether the message was delivered. -/
def sendSlackAlert (env : AlertEnv) (now : Nat) (m : AlertMessage) (a : Analytics) :
    Bool × Analytics :=
  if !env.webhookConfigured then (false, a)
  else
    let key := alertDedupKey env.day m
    if markerLive a.alertMarkers now key then (false, a)
    else if env.fetchOk then
      (true, { a with alertMarkers := setMarker a.alertMarkers key (now + 3600) })
    else (false, a)

/-- Function `checkBudgetAndAlert()`: read today's spend; `spend ≥ cap` → critical
alert; else `spend ≥ cap * 0.8` → warning alert; else nothing.  Returns the
message handed to `sendSlackAlert` (with its delivery outcome) and the updated
store. -/
def checkBudgetAndAlert (cap : ℚ) (env : AlertEnv) (now : Nat) (a : Analytics) :
    Option (AlertMessage × Bool) × Analytics :=
  let spend := estimatedCost a
  if spend ≥ cap then
    let m : AlertMessage :=
      { kind := .critical, cap := cap, spend := spend, requests := a.requests,
        tokens := a.tokens }
    let r := sendSlackAlert env now m a
    (some (m, r.1), r.2)
  else if spend ≥ qmul cap (mkRat 8 10) then
    let m : AlertMessage := { kind := .warning, cap := cap, spend := spend }
    let r := sendSlackAlert env now m a
    (some (m, r.1), r.2)
  else (none, a)

/-- One `RequestLog` handed to `trackRequest`. -/
structure RequestLog where
  timestamp : Nat
  userId : String
  tier : Tier
  tokens : Nat
  cost : ℚ
  model : String
  keyUsed : String

/-- Function `trackRequest(log)`: one pipeline of atomic increments — request count,
token count, cost counter (`incrby` of `Math.round(cost * 100000)`), per-tier
counter and the per-user sorted-set score — followed by `checkBudgetAndAlert`.
The modelled store operations do not fail, so the surrounding catch is inert. -/
def trackRequest (cap : ℚ) (env : AlertEnv) (now : Nat) (log : RequestLog) (a : Analytics) :
    Option (AlertMessage × Bool) × Analytics :=
  let a1 : Analytics := { a with
    requests := a.requests + 1
    tokens := a.tokens + log.tokens
    costRaw := a.costRaw + (roundJS (qmul log.cost 100000)).toNat
    tierAnonymous := a.tierAnonymous + (if log.tier = .anonymous then 1 else 0)
    tierAuthenticated := a.tierAuthenticated + (if log.tier = .authenticated then 1 else 0)
    users := bumpScore a.users log.userId }
  checkBudgetAndAlert cap env now a1

/-! ## The generate endpoint (`POST /api/v1/generate`) -/

/-- Parsed request body.  `prompt = none` models a missing or non-string
prompt (the `!body.prompt || typeof body.prompt !== "string"` check);
`temperature`/`maxTokens`/`model` are passed through to the upstream call and
play no role in admission, so they are carried by the upstream oracle. -/
structure GenerateBody where
  prompt : Option String := none
  deriving Repr, DecidableEq

/-- An incoming HTTP request to the generate endpoint.  `body = none` models a
JSON parse failure. -/
structure GenerateHttpRequest where
  method : String := "POST"
  headers : Headers := {}
  body : Option GenerateBody := none
  deriving Repr, DecidableEq

/-- JSON body of a generate response: either the success shape with its
`usage` block, or the error shape `{error, code, retryAfter?}`. -/
inductive RespBody where
  | genSuccess (text : String) (model : String) (usageRemaining : Int)
      (usageLimit : Nat) (usageReset : Nat)
  | genError (error : String) (code : String) (retryAfter : Option Nat)
  deriving Repr, DecidableEq

/-- A generate response: HTTP status, JSON body, and the rate-limit headers
(as the strings the handler writes, when it writes them). -/
structure ApiResponse where
  status : Nat
  body : RespBody
  headerLimit : Option String := none
  headerRemaining : Option String := none
  deriving Repr, DecidableEq

/-- JS `Math.ceil((reset - now) / 1000)` for the `Retry-After` value
(both instants in milliseconds, `reset ≥ now` on this path). -/
def retryAfterSecs (now reset : Nat) : Nat :=
  (reset - now + 999) / 1000

/-- The handler's token estimate
`Math.ceil((body.prompt.length + result.text.length) / 4)`. -/
def estimateTokens (promptLen textLen : Nat) : Nat :=
  (promptLen + textLen + 3) / 4

/-- The per-tier limiter configuration the endpoints instantiate:
anonymous 5/day under `rocket:ratelimit:anon`, authenticated 25/day under
`rocket:ratelimit:auth`. -/
def tierLimit : Tier → Nat
  | .anonymous => 5
  | .authenticated => 25

def tierKeyStem : Tier → String
  | .anonymous => "rocket:ratelimit:anon"
  | .authenticated => "rocket:ratelimit:auth"

/-- The mutable world the handlers coordinate through: the shared store's
rate-limit counters and analytics/alert keys, the budget-read health flag, and
the process-local credential pool. -/
structure World where
  rl : RLStore := {}
  budgetReadOk : Bool := true
  analytics : Analytics := {}
  keys : List GeminiKey := []

/-- Request-independent configuration and environment of one invocation:
budget cap (`DAILY_BUDGET_CAP`, default 10), alert delivery environment,
`Date.now()` / the limiter's window reset (milliseconds), the per-attempt
clock for credential `lastUsed`, and the upstream backend's response to each
call. -/
structure Env where
  budgetCap : ℚ := 10
  alert : AlertEnv := {}
  now : Nat := 0
  reset : Nat := 0
  time : Nat → Nat := fun _ => 0
  upstream : Nat → Except String GenSuccess := fun _ => .error "unreachable"

/-- The generate handler, following the source order: method check → JSON
parse → prompt validation (missing/empty → `INVALID_PROMPT`, length over
32000 → `PROMPT_TOO_LONG`) → identity resolution → consuming rate-limit check
(429 with `RATE_LIMIT_EXCEEDED` and `Retry-After` when over) → budget gate
(503 `BUDGET_EXCEEDED`) → `generateWithRotation`; on success it estimates
tokens as `Math.ceil((prompt.length + text.length) / 4)`, records analytics
(fire-and-forget) and answers 200 with `usage.remaining = remaining - 1`; on
failure it maps the error message to `UPSTREAM_RATE_LIMIT` / `CONFIG_ERROR`
(503) or `GENERATION_FAILED` (500). -/
def generateHandler (env : Env) (req : GenerateHttpRequest) (w : World) :
    ApiResponse × World :=
  if req.method ≠ "POST" then
    ({ status := 405, body := .genError "Method not allowed" "METHOD_NOT_ALLOWED" none }, w)
  else
    match req.body with
    | none => ({ status := 400, body := .genError "Invalid JSON body" "INVALID_JSON" none }, w)
    | some body =>
      match body.prompt with
      | none =>
        ({ status := 400, body := .genError "Missing or invalid prompt" "INVALID_PROMPT" none }, w)
      | some prompt =>
        if prompt = "" then
          ({ status := 400, body := .genError "Missing or invalid prompt" "INVALID_PROMPT" none }, w)
        else if prompt.length > 32000 then
          ({ status := 400,
             body := .genError "Prompt too long (max 32000 chars)" "PROMPT_TOO_LONG" none }, w)
        else
          let ident := getUserIdentifier req.headers
          let rlr := ratelimitLimit (tierLimit ident.tier) env.reset (tierKeyStem ident.tier)
            ident.userId w.rl
          let rl := rlr.1
          let w1 : World := { w with rl := rlr.2 }
          if !rl.success then
            ({ status := 429
               body := .genError "Rate limit exceeded" "RATE_LIMIT_EXCEEDED"
                 (some (retryAfterSecs env.now env.reset))
               headerLimit := some (natToDecString rl.limit)
               headerRemaining := some "0" }, w1)
          else if checkBudgetExceeded env.budgetCap w1.budgetReadOk w1.analytics.costRaw then
            ({ status := 503
               body := .genError "Service temporarily unavailable due to high demand"
                 "BUDGET_EXCEEDED" none }, w1)
          else
            match generateWithRotation env.upstream env.time w1.keys with
            | (.ok result, keys') =>
              let estimatedTokens := estimateTokens prompt.length result.text.length
              let cost := calculateCost estimatedTokens
              let tr := trackRequest env.budgetCap env.alert env.now
                { timestamp := env.now, userId := ident.userId, tier := ident.tier,
                  tokens := estimatedTokens, cost := cost, model := result.model,
                  keyUsed := result.keyUsed } w1.analytics
              ({ status := 200
                 body := .genSuccess result.text result.model ((rl.remaining : Int) - 1)
                   rl.limit env.reset
                 headerLimit := some (natToDecString rl.limit)
                 headerRemaining := some (intToDecString ((rl.remaining : Int) - 1)) },
               { w1 with keys := keys', analytics := tr.2 })
            | (.error msg, keys') =>
              let w2 : World := { w1 with keys := keys' }
              if jsIncludes msg "rate limit" || jsIncludes msg "429" then
                ({ status := 503
                   body := .genError "Upstream rate limit exceeded" "UPSTREAM_RATE_LIMIT" none },
                 w2)
              else if jsIncludes msg "API key" then
                ({ status := 503
                   body := .genError "Service configuration error" "CONFIG_ERROR" none }, w2)
              else
                ({ status := 500
                   body := .genError "Failed to generate response" "GENERATION_FAILED" none }, w2)

/-! ## The limits endpoint (`GET /api/v1/limits`) -/

structure LimitsRequest where
  method : String := "GET"
  headers : Headers := {}
  deriving Repr, DecidableEq

/-- JSON body of a limits response (`resetAt` is the ISO rendering of `reset`
and carries no extra information, so only `reset` is tracked). -/
inductive LimitsBody where
  | preflight
  | methodNotAllowed
  | ok (tier : Tier) (limit : Nat) (remaining : Nat) (reset : Nat)
      (benefitsCurrent : List String) (benefitsUpgrade : Option (List String))
  deriving Repr, DecidableEq

structure LimitsResponse where
  status : Nat
  body : LimitsBody
  headerLimit : Option String := none
  headerRemaining : Option String := none
  deriving Repr, DecidableEq

def authBenefits : List String :=
  ["25 requests per day", "Priority support", "Usage analytics",
   "Early access to new features"]

def anonBenefits : List String :=
  ["5 requests per day", "Basic LLM access", "Community support"]

def upgradeBenefits : List String :=
  ["5x more daily requests (25/day)", "Priority support",
   "Usage analytics dashboard", "Early access to new features"]

/-- The limits handler: CORS preflight → 204; non-GET → 405; otherwise resolve
the identity and read the tier's current remaining via the limiter's
non-consuming `getRemaining`, answering 200 with the status body and rate-limit
headers. -/
def limitsHandler (reset : Nat) (req : LimitsRequest) (st : RLStore) :
    LimitsResponse × RLStore :=
  if req.method = "OPTIONS" then ({ status := 204, body := .preflight }, st)
  else if req.method ≠ "GET" then ({ status := 405, body := .methodNotAllowed }, st)
  else
    let ident := getUserIdentifier req.headers
    let r := ratelimitGetRemaining (tierLimit ident.tier) reset (tierKeyStem ident.tier)
      ident.userId st
    ({ status := 200
       body := .ok ident.tier r.1.limit r.1.remaining r.1.reset
         (if ident.tier = .authenticated then authBenefits else anonBenefits)
         (if ident.tier = .anonymous then some upgradeBenefits else none)
       headerLimit := some (natToDecString r.1.limit)
       headerRemaining := some (natToDecString r.1.remaining) }, r.2)

/-! ## OAuth state and sessions (`lib/auth.ts`, `api/auth/callback.ts`) -/

/-- Structure `AuthSession` as stored under `rocket:session:<token>`. -/
structure AuthSession where
  userId : String
  username : String
  name : Option String := none
  email : Option String := none
  avatarUrl : String := ""
  accessToken : String := ""
  createdAt : Nat := 0
  expiresAt : Nat := 0
  deriving Repr, DecidableEq

/-- The store keys `lib/auth.ts` owns: CSRF states
`rocket:oauth_state:<state> ↦ (redirectUri, absolute expiry in seconds)` and
sessions `rocket:session:<token>`. -/
structure OAuthStore where
  states : List (String × String × Nat) := []
  sessions : List (String × AuthSession) := []
  deriving Repr, DecidableEq

/-- Function `storeState(state, redirectUri)`: `set` with a 10-minute TTL. -/
def storeState (now : Nat) (state redirectUri : String) (st : OAuthStore) : OAuthStore :=
  if (st.states.find? (fun p => p.1 = state)).isSome then
    let states := st.states.map
      (fun p => if p.1 = state then (p.1, redirectUri, now + 600) else p)
    { st with states := states }
  else { st with states := st.states ++ [(state, redirectUri, now + 600)] }

/-- The store's `get` on a state key: the stored redirect while the TTL has not
elapsed, else `null`. -/
def getState (now : Nat) (state : String) (st : OAuthStore) : Option String :=
  match st.states.find? (fun p => p.1 = state && now < p.2.2) with
  | some p => some p.2.1
  | none => none

/-- Function `validateState(state)`: `get` the stored redirect; when one came back
(truthy), `del` the record; return the redirect (or `null`).  A read-once,
then-deleted consume. -/
def validateState (now : Nat) (state : String) (st : OAuthStore) :
    Option String × OAuthStore :=
  match getState now state st with
  | some uri =>
    if uri ≠ "" then
      (some uri, { st with states := st.states.filter (fun p => p.1 ≠ state) })
    else (some uri, st)
  | none => (none, st)

/-- Function `getSession(token)`: empty token or no record → `null`; a record past its
`expiresAt` → `null` (treated as unauthenticated; the source also lazily
deletes the stale record, a side effect with no bearing on the claims). -/
def getSession (now : Nat) (token : String) (st : OAuthStore) : Option AuthSession :=
  if token = "" then none
  else
    match st.sessions.find? (fun p => p.1 = token) with
    | none => none
    | some p => if p.2.expiresAt < now then none else some p.2

/-- The identity a resolved session carries (`session.userId`, minted by
`createSession` as `github:<numeric GitHub id>`). -/
def resolvedSessionIdentity (now : Nat) (token : String) (st : OAuthStore) :
    Option String :=
  (getSession now token st).map (fun s => s.userId)

/-- Query parameters of the OAuth callback. -/
structure CallbackParams where
  code : Option String := none
  state : Option String := none
  error : Option String := none
  errorDescription : Option String := none
  deriving Repr, DecidableEq

/-- The callback handler's outcome: the 400 HTML error page (with its error
code), or the 200 HTML success page of the CLI resp. web flow. -/
inductive CallbackOutcome where
  | methodNotAllowed
  | errorPage (code : String) (description : String)
  | cliSuccess (token username : String)
  | webSuccess (token username redirect : String)
  deriving Repr, DecidableEq

/-- JS truthiness of an optional string parameter (`null` and `""` are falsy). -/
def truthyStr (o : Option String) : Option String :=
  match o with
  | some s => if s = "" then none else some s
  | none => none

/-- Network effects of the callback: the GitHub code-for-token exchange, and
`createSession`'s profile fetch + session mint (yielding the fresh session
token and the stored `AuthSession`).  `.error` models the call throwing. -/
structure CallbackEnv where
  now : Nat := 0
  exchange : String → Except String String := fun _ => .error "unreachable"
  mkSession : String → Except String (String × AuthSession) := fun _ => .error "unreachable"

/-- The OAuth callback handler (`GET /api/auth/callback`), in source order:
provider `error` param → error page; missing/empty `code` or `state` → error
page; `validateState` (consuming) fails → `invalid_state` error page, with no
token exchange; then exchange the code, mint a session and show the CLI or web
success page depending on the stored redirect; any thrown error becomes the
`server_error` page.  The final component reports whether the token exchange
was invoked. -/
def callbackHandler (env : CallbackEnv) (p : CallbackParams) (st : OAuthStore) :
    CallbackOutcome × OAuthStore × Bool :=
  match p.error with
  | some e => (.errorPage e (p.errorDescription.getD "Authorization failed"), st, false)
  | none =>
    match truthyStr p.code, truthyStr p.state with
    | some code, some state =>
      let vs := validateState env.now state st
      match truthyStr vs.1 with
      | none => (.errorPage "invalid_state" "Invalid or expired state parameter", vs.2, false)
      | some storedRedirect =>
        match env.exchange code with
        | .error msg => (.errorPage "server_error" msg, vs.2, true)
        | .ok accessToken =>
          match env.mkSession accessToken with
          | .error msg => (.errorPage "server_error" msg, vs.2, true)
          | .ok (sessionToken, session) =>
            let st2 : OAuthStore :=
              { vs.2 with sessions := vs.2.sessions ++ [(sessionToken, session)] }
            if jsStartsWith storedRedirect "/cli-callback" then
              (.cliSuccess sessionToken session.username, st2, true)
            else (.webSuccess sessionToken session.username storedRedirect, st2, true)
    | _, _ => (.errorPage "invalid_request" "Missing code or state parameter", st, false)

/-! ## Run iterators and response accessors used by the claims -/

/-- The rate-limit key of an identity, as both endpoints build it. -/
def rlKeyOf (ident : Identity) : String :=
  tierKeyStem ident.tier ++ ":" ++ ident.userId

/-- Runs `n` successive invocations of the generate handler with the same request,
threading the world. -/
def generateRun (env : Env) (req : GenerateHttpRequest) : Nat → World → List ApiResponse
  | 0, _ => []
  | n + 1, w =>
    let r := generateHandler env req w
    r.1 :: generateRun env req n r.2

/-- Runs `n` successive invocations of the limits handler with the same request,
threading the store. -/
def limitsRun (reset : Nat) (req : LimitsRequest) : Nat → RLStore → List LimitsResponse
  | 0, _ => []
  | n + 1, st =>
    let r := limitsHandler reset req st
    r.1 :: limitsRun reset req n r.2

/-- The `usage.remaining` a generate response body reports (success shape only). -/
def respUsageRemaining (r : ApiResponse) : Option Int :=
  match r.body with
  | .genSuccess _ _ u _ _ => some u
  | .genError _ _ _ => none

/-- The machine-readable error `code` of a generate response body, if any. -/
def respErrorCode (r : ApiResponse) : Option String :=
  match r.body with
  | .genSuccess _ _ _ _ _ => none
  | .genError _ c _ => some c

/-- The `retryAfter` a generate response body reports, if any. -/
def respRetryAfter (r : ApiResponse) : Option Nat :=
  match r.body with
  | .genSuccess _ _ _ _ _ => none
  | .genError _ _ ra => ra

/-! ## Claims -/

/-- C10: a request with no Authorization bearer header, no `X-GitHub-User`,
no `X-Forwarded-For` and no `X-Real-IP` resolves to tier `anonymous` with the
single fixed identity `ip:<hash of the literal string "unknown">`, so all such
callers land in one shared anonymous quota bucket. -/
theorem C10_unknown_ip_bucket (h : Headers)
    (hb : bearerToken h = none)
    (hg : h.xGithubUser = none)
    (hf : h.xForwardedFor = none)
    (hr : h.xRealIp = none) :
    getUserIdentifier h = { userId := "ip:" ++ hashString "unknown", tier := .anonymous } := by
  simp [getUserIdentifier, hb, hg, fallbackIp, hf, hr]

/-- Witness for C10 at the empty header set. -/
theorem C10_unknown_ip_bucket_witness :
    getUserIdentifier {} =
      { userId := "ip:" ++ hashString "unknown", tier := Tier.anonymous } :=
  C10_unknown_ip_bucket {} rfl rfl rfl rfl

/-- C3 (amended): identity resolution precedence as the code implements it —
an Authorization Bearer header wins and yields `github:<hash(token)>` with tier
authenticated (the token itself is hashed; no session store lookup happens);
otherwise a non-empty `X-GitHub-User` header yields `github:<user>` with tier
authenticated; otherwise the hashed forwarded-for/real-IP fallback yields
`ip:<hash>` with tier anonymous. -/
theorem C3_identity_precedence (h : Headers) :
    (∀ tok, bearerToken h = some tok →
      getUserIdentifier h =
        { userId := "github:" ++ hashString tok, tier := .authenticated }) ∧
    (∀ u, bearerToken h = none → h.xGithubUser = some u → u ≠ "" →
      getUserIdentifier h = { userId := "github:" ++ u, tier := .authenticated }) ∧
    (bearerToken h = none → (h.xGithubUser = none ∨ h.xGithubUser = some "") →
      getUserIdentifier h =
        { userId := "ip:" ++ hashString (fallbackIp h), tier := .anonymous }) := by
  refine ⟨?_, ?_, ?_⟩
  · intro tok h1
    simp [getUserIdentifier, h1]
  · intro u h1 h2 h3
    simp [getUserIdentifier, h1, h2, h3]
  · intro h1 h2
    rcases h2 with h2 | h2 <;> simp [getUserIdentifier, h1, h2]

/-- Witness for C3 exercising all three precedence branches. -/
theorem C3_identity_precedence_witness :
    getUserIdentifier { authorization := some "Bearer tok" } =
      { userId := "github:" ++ hashString "tok", tier := Tier.authenticated } ∧
    getUserIdentifier { xGithubUser := some "alice" } =
      { userId := "github:" ++ "alice", tier := Tier.authenticated } ∧
    getUserIdentifier { xForwardedFor := some "1.2.3.4, 5.6.7.8" } =
      { userId := "ip:" ++ hashString (fallbackIp { xForwardedFor := some "1.2.3.4, 5.6.7.8" }),
        tier := Tier.anonymous } :=
  ⟨(C3_identity_precedence _).1 "tok" rfl,
   (C3_identity_precedence _).2.1 "alice" rfl rfl (by decide),
   (C3_identity_precedence _).2.2 rfl (Or.inl rfl)⟩

/-- Counterexample to C3 as stated: the Bearer branch does not resolve the
session.  With a session store mapping token "tok" to the resolved session
identity `github:123`, `getUserIdentifier` still answers `github:<hash("tok")>`
(= `github:2gr4`), which is not the resolved session's identity. -/
theorem C3_counterexample :
    resolvedSessionIdentity 0 "tok"
        { sessions := [("tok", { userId := "github:123", username := "alice", expiresAt := 1000 })] } =
      some "github:123" ∧
    getUserIdentifier { authorization := some "Bearer tok" } =
      { userId := "github:2gr4", tier := Tier.authenticated } ∧
    "github:2gr4" ≠ "github:123" := by
  refine ⟨rfl, ?_, by decide⟩
  decide

/-- C9: the advisory limits endpoint never mutates the quota counters — its
output store equals its input store, and `n` successive calls with no
intervening admit all return the identical response (hence identical
`remaining`). -/
theorem C9_status_never_consumes (reset : Nat) (req : LimitsRequest) (st : RLStore) :
    (limitsHandler reset req st).2 = st ∧
    ∀ n, limitsRun reset req n st = List.replicate n (limitsHandler reset req st).1 := by
  have hst : (limitsHandler reset req st).2 = st := by
    unfold limitsHandler ratelimitGetRemaining
    split_ifs <;> rfl
  refine ⟨hst, ?_⟩
  intro n
  induction n with
  | zero => rfl
  | succ n ih => simp [limitsRun, hst, ih, List.replicate_succ]

/-! ### Selection-policy lemmas (`selectKey`) -/

lemma olderKey_eq_or (a b : GeminiKey) : olderKey a b = a ∨ olderKey a b = b := by
  unfold olderKey
  split <;> simp

lemma olderKey_le_left (a b : GeminiKey) :
    luOrd (olderKey a b).lastUsed ≤ luOrd a.lastUsed := by
  unfold olderKey
  split <;> omega

lemma olderKey_le_right (a b : GeminiKey) :
    luOrd (olderKey a b).lastUsed ≤ luOrd b.lastUsed := by
  unfold olderKey
  split <;> omega

lemma oldestFrom_cons (a k : GeminiKey) (ks : List GeminiKey) :
    oldestFrom a (k :: ks) = oldestFrom (olderKey a k) ks := rfl

lemma oldestFrom_mem (a : GeminiKey) (ks : List GeminiKey) :
    oldestFrom a ks ∈ a :: ks := by
  induction ks generalizing a with
  | nil => simp [oldestFrom]
  | cons k t ih =>
    rw [oldestFrom_cons]
    have h := ih (olderKey a k)
    rcases List.mem_cons.mp h with h1 | h1
    · rcases olderKey_eq_or a k with he | he
      · rw [h1, he]
        exact List.mem_cons_self _ _
      · rw [h1, he]
        exact List.mem_cons_of_mem _ (List.mem_cons_self _ _)
    · exact List.mem_cons_of_mem _ (List.mem_cons_of_mem _ h1)

lemma oldestFrom_le (a : GeminiKey) (ks : List GeminiKey) :
    ∀ x ∈ a :: ks, luOrd (oldestFrom a ks).lastUsed ≤ luOrd x.lastUsed := by
  induction ks generalizing a with
  | nil =>
    intro x hx
    simp only [List.mem_singleton] at hx
    subst hx
    exact le_refl _
  | cons k t ih =>
    intro x hx
    rw [oldestFrom_cons]
    rcases List.mem_cons.mp hx with h1 | h1
    · rw [h1]
      exact le_trans (ih (olderKey a k) _ (List.mem_cons_self _ _)) (olderKey_le_left a k)
    · rcases List.mem_cons.mp h1 with h2 | h2
      · rw [h2]
        exact le_trans (ih (olderKey a k) _ (List.mem_cons_self _ _)) (olderKey_le_right a k)
      · exact ih (olderKey a k) x (List.mem_cons_of_mem _ h2)

lemma selectKey_of_healthy_mem (keys : List GeminiKey) (k0 : GeminiKey)
    (hk0 : k0 ∈ keys) (hh : k0.isHealthy = true) :
    ∃ c, selectKey keys = (some c, keys) ∧ c ∈ keys ∧ c.isHealthy = true ∧
      ∀ x ∈ keys, x.isHealthy = true → luOrd c.lastUsed ≤ luOrd x.lastUsed := by
  cases keys with
  | nil => simp at hk0
  | cons k ks =>
    cases hfil : (k :: ks).filter (fun x => x.isHealthy) with
    | nil =>
      exfalso
      have hmem : k0 ∈ (k :: ks).filter (fun x => x.isHealthy) :=
        List.mem_filter.mpr ⟨hk0, by simp [hh]⟩
      rw [hfil] at hmem
      simp at hmem
    | cons h hs =>
      have hmm : oldestFrom h hs ∈ h :: hs := oldestFrom_mem h hs
      have hmf : oldestFrom h hs ∈ (k :: ks).filter (fun x => x.isHealthy) := by
        rw [hfil]; exact hmm
      refine ⟨oldestFrom h hs, ?_, List.mem_of_mem_filter hmf, ?_, ?_⟩
      · simp only [selectKey]
        rw [hfil]
      · have := List.of_mem_filter hmf
        simpa using this
      · intro x hx hxh
        have hxf : x ∈ h :: hs := by
          rw [← hfil]
          exact List.mem_filter.mpr ⟨hx, by simp [hxh]⟩
        exact oldestFrom_le h hs x hxf

lemma selectKey_of_all_unhealthy (k : GeminiKey) (ks : List GeminiKey)
    (hall : ∀ x ∈ k :: ks, x.isHealthy = false) :
    selectKey (k :: ks) =
      (some { oldestFrom k ks with isHealthy := true },
       setHealthyByName (oldestFrom k ks).name (k :: ks)) ∧
    oldestFrom k ks ∈ k :: ks ∧
    ∀ x ∈ k :: ks, luOrd (oldestFrom k ks).lastUsed ≤ luOrd x.lastUsed := by
  have hfil : (k :: ks).filter (fun x => x.isHealthy) = [] := by
    rw [List.filter_eq_nil_iff]
    intro x hx
    simp [hall x hx]
  refine ⟨?_, oldestFrom_mem k ks, oldestFrom_le k ks⟩
  simp only [selectKey]
  rw [hfil]

/-- C4: the selection policy of `selectKey` — no configured credentials →
none; at least one healthy credential → a healthy credential that is
least-recently-used among the healthy ones (never-used first, i.e. minimal
`luOrd` of `lastUsed`), with the pool untouched (in particular no unhealthy
credential is ever returned on this branch); all credentials unhealthy → the
least-recently-used credential of the whole pool, returned and stored with
`isHealthy` reset to `true`. -/
theorem C4_selectKey_policy (keys : List GeminiKey) :
    (keys = [] → selectKey keys = (none, [])) ∧
    (∀ k0, k0 ∈ keys → k0.isHealthy = true →
      ∃ c, selectKey keys = (some c, keys) ∧ c ∈ keys ∧ c.isHealthy = true ∧
        ∀ x ∈ keys, x.isHealthy = true → luOrd c.lastUsed ≤ luOrd x.lastUsed) ∧
    (keys ≠ [] → (∀ x ∈ keys, x.isHealthy = false) →
      ∃ c, c ∈ keys ∧
        selectKey keys = (some { c with isHealthy := true }, setHealthyByName c.name keys) ∧
        ∀ x ∈ keys, luOrd c.lastUsed ≤ luOrd x.lastUsed) := by
  refine ⟨?_, ?_, ?_⟩
  · rintro rfl
    rfl
  · intro k0 h1 h2
    exact selectKey_of_healthy_mem keys k0 h1 h2
  · intro hne hall
    cases keys with
    | nil => simp at hne
    | cons k ks =>
      obtain ⟨h1, h2, h3⟩ := selectKey_of_all_unhealthy k ks hall
      exact ⟨oldestFrom k ks, h2, h1, h3⟩

/-- Witness for C4 on a concrete three-credential pool: the never-used healthy
fallback is selected and the pool is untouched; the empty pool gives none. -/
theorem C4_selectKey_policy_witness :
    (selectKey [] = (none, [])) ∧
    (∃ c, selectKey
        ([{ name := "primary", lastUsed := some 5, requestCount := 3 },
          { name := "fallback1" },
          { name := "fallback2", isHealthy := false, lastError := some "Rate limited", lastUsed := some 1, requestCount := 2 }] : List GeminiKey) =
        (some c,
         [{ name := "primary", lastUsed := some 5, requestCount := 3 },
          { name := "fallback1" },
          { name := "fallback2", isHealthy := false, lastError := some "Rate limited", lastUsed := some 1, requestCount := 2 }]) ∧
      c ∈
        ([{ name := "primary", lastUsed := some 5, requestCount := 3 },
          { name := "fallback1" },
          { name := "fallback2", isHealthy := false, lastError := some "Rate limited", lastUsed := some 1, requestCount := 2 }] : List GeminiKey) ∧
      c.isHealthy = true ∧
      ∀ x ∈
        ([{ name := "primary", lastUsed := some 5, requestCount := 3 },
          { name := "fallback1" },
          { name := "fallback2", isHealthy := false, lastError := some "Rate limited", lastUsed := some 1, requestCount := 2 }] : List GeminiKey),
        x.isHealthy = true → luOrd c.lastUsed ≤ luOrd x.lastUsed) ∧
    selectKey
        ([{ name := "primary", lastUsed := some 5, requestCount := 3 },
          { name := "fallback1" },
          { name := "fallback2", isHealthy := false, lastError := some "Rate limited", lastUsed := some 1, requestCount := 2 }] : List GeminiKey) =
      (some { name := "fallback1" },
       [{ name := "primary", lastUsed := some 5, requestCount := 3 },
        { name := "fallback1" },
        { name := "fallback2", isHealthy := false, lastError := some "Rate limited", lastUsed := some 1, requestCount := 2 }]) :=
  ⟨(C4_selectKey_policy []).1 rfl,
   (C4_selectKey_policy _).2.1
     { name := "primary", lastUsed := some 5, requestCount := 3 }
     (by decide) rfl,
   by decide⟩

/-! ### Retry-loop lemmas (`generateWithRotation`) -/

lemma selectKey_snd_length (keys : List GeminiKey) :
    (selectKey keys).2.length = keys.length := by
  cases keys with
  | nil => rfl
  | cons k ks =>
    cases hfil : (k :: ks).filter (fun x => x.isHealthy) with
    | nil =>
      simp only [selectKey]
      rw [hfil]
      simp [setHealthyByName]
    | cons h hs =>
      simp only [selectKey]
      rw [hfil]

lemma selectKey_some_of_ne_nil (keys : List GeminiKey) (h : keys ≠ []) :
    ∃ c keys', selectKey keys = (some c, keys') := by
  cases keys with
  | nil => exact absurd rfl h
  | cons k ks =>
    cases hfil : (k :: ks).filter (fun x => x.isHealthy) with
    | nil =>
      refine ⟨{ oldestFrom k ks with isHealthy := true },
        setHealthyByName (oldestFrom k ks).name (k :: ks), ?_⟩
      simp only [selectKey]
      rw [hfil]
    | cons hh hs =>
      refine ⟨oldestFrom hh hs, k :: ks, ?_⟩
      simp only [selectKey]
      rw [hfil]

lemma markKeyUnhealthy_length (keys : List GeminiKey) (name err : String) :
    (markKeyUnhealthy keys name err).length = keys.length := by
  simp [markKeyUnhealthy]

lemma rotationLoop_exhaust (u : Nat → Except String GenSuccess) (time : Nat → Nat)
    (attempt : Nat) (keys : List GeminiKey) (m : String) :
    rotationLoop u time attempt 0 keys (some m) = (.error m, keys) := by
  simp [rotationLoop]

lemma rotationLoop_retry_step (u : Nat → Except String GenSuccess) (time : Nat → Nat)
    (attempt fuel : Nat) (keys keys₁ : List GeminiKey) (k : GeminiKey)
    (le : Option String) (msg : String)
    (hsel : selectKey keys = (some k, keys₁))
    (hu : u attempt = .error msg)
    (hcl : classifyError msg ≠ .other) :
    rotationLoop u time attempt (fuel + 1) keys le =
      rotationLoop u time (attempt + 1) fuel
        (markKeyUnhealthy keys₁ k.name
          (if classifyError msg = .rateLimited then "Rate limited" else "Invalid API key"))
        (some msg) := by
  simp only [rotationLoop, hsel, hu]
  cases hc : classifyError msg with
  | rateLimited => simp [hc]
  | invalidKey => simp [hc]
  | other => exact absurd hc hcl

lemma rotationLoop_other_step (u : Nat → Except String GenSuccess) (time : Nat → Nat)
    (attempt fuel : Nat) (keys keys₁ : List GeminiKey) (k : GeminiKey)
    (le : Option String) (msg : String)
    (hsel : selectKey keys = (some k, keys₁))
    (hu : u attempt = .error msg)
    (hcl : classifyError msg = .other) :
    rotationLoop u time attempt (fuel + 1) keys le = (.error msg, keys₁) := by
  simp only [rotationLoop, hsel, hu, hcl]

lemma rotationLoop_success_step (u : Nat → Except String GenSuccess) (time : Nat → Nat)
    (attempt fuel : Nat) (keys keys₁ : List GeminiKey) (k : GeminiKey)
    (le : Option String) (s : GenSuccess)
    (hsel : selectKey keys = (some k, keys₁))
    (hu : u attempt = .ok s) :
    rotationLoop u time attempt (fuel + 1) keys le =
      (.ok { text := s.text, model := "gemini-1.5-flash", usage := s.usage, keyUsed := k.name },
       updateKey keys₁ k.name
         { k with lastUsed := some (time attempt), requestCount := k.requestCount + 1,
                  isHealthy := true, lastError := none }) := by
  simp only [rotationLoop, hsel, hu]

lemma markKeyUnhealthy_name_unhealthy (keys : List GeminiKey) (name err : String) :
    ∀ x ∈ markKeyUnhealthy keys name err, x.name = name → x.isHealthy = false := by
  intro x hx hn
  rcases List.mem_map.mp hx with ⟨y, _, hy⟩
  by_cases hyn : y.name = name
  · rw [← hy]
    simp [hyn]
  · exfalso
    rw [← hy] at hn
    simp [hyn] at hn

lemma markKeyUnhealthy_mem_of_other (keys : List GeminiKey) (name err : String)
    (x : GeminiKey) (hx : x ∈ keys) (hn : x.name ≠ name) :
    x ∈ markKeyUnhealthy keys name err := by
  refine List.mem_map.mpr ⟨x, hx, ?_⟩
  simp [hn]

/-- C5: the bounded retry loop (`maxRetries = 3`) — a first-attempt failure
classified quota/rate-limited or invalid/unauthorized marks the selected
credential unhealthy and continues with the next attempt (and the next
selection never returns that credential while another healthy one exists);
any other failure is surfaced immediately with the pool left exactly as the
selection produced it (no unhealthy marking); three retryable failures
exhaust the attempts and surface the last observed error. -/
theorem C5_retry_classification (time : Nat → Nat) (keys keys₁ : List GeminiKey)
    (k : GeminiKey) (hsel : selectKey keys = (some k, keys₁)) :
    (∀ (u : Nat → Except String GenSuccess) msg, u 0 = .error msg →
      classifyError msg ≠ .other →
      generateWithRotation u time keys =
        rotationLoop u time 1 2
          (markKeyUnhealthy keys₁ k.name
            (if classifyError msg = .rateLimited then "Rate limited" else "Invalid API key"))
          (some msg) ∧
      (∀ x ∈ markKeyUnhealthy keys₁ k.name
          (if classifyError msg = .rateLimited then "Rate limited" else "Invalid API key"),
        x.name = k.name → x.isHealthy = false) ∧
      (∀ other ∈ keys₁, other.name ≠ k.name → other.isHealthy = true →
        ∀ c keys₂, selectKey (markKeyUnhealthy keys₁ k.name
            (if classifyError msg = .rateLimited then "Rate limited" else "Invalid API key")) =
          (some c, keys₂) → c.name ≠ k.name)) ∧
    (∀ (u : Nat → Except String GenSuccess) msg, u 0 = .error msg →
      classifyError msg = .other →
      generateWithRotation u time keys = (.error msg, keys₁)) ∧
    (∀ (u : Nat → Except String GenSuccess) m0 m1 m2,
      u 0 = .error m0 → u 1 = .error m1 → u 2 = .error m2 →
      classifyError m0 ≠ .other → classifyError m1 ≠ .other → classifyError m2 ≠ .other →
      (generateWithRotation u time keys).1 = .error m2) := by
  have hkeys_ne : keys ≠ [] := by
    intro h
    rw [h] at hsel
    simp [selectKey] at hsel
  have hlen₁ : keys₁.length = keys.length := by
    have h := selectKey_snd_length keys
    rw [hsel] at h
    exact h
  refine ⟨?_, ?_, ?_⟩
  · intro u msg hu hcl
    refine ⟨rotationLoop_retry_step u time 0 2 keys keys₁ k none msg hsel hu hcl,
      markKeyUnhealthy_name_unhealthy _ _ _, ?_⟩
    intro other hother hon hoh c keys₂ hsel₂ hcn
    have hmem : other ∈ markKeyUnhealthy keys₁ k.name
        (if classifyError msg = .rateLimited then "Rate limited" else "Invalid API key") :=
      markKeyUnhealthy_mem_of_other _ _ _ other hother hon
    obtain ⟨c', hc'eq, hc'mem, hc'h, _⟩ := selectKey_of_healthy_mem _ other hmem hoh
    rw [hsel₂] at hc'eq
    have hcc : c = c' := by
      have h1 := congrArg Prod.fst hc'eq
      simpa using h1
    have hbad := markKeyUnhealthy_name_unhealthy keys₁ k.name
      (if classifyError msg = .rateLimited then "Rate limited" else "Invalid API key")
      c' hc'mem (by rw [← hcc]; exact hcn)
    rw [hbad] at hc'h
    exact Bool.noConfusion hc'h
  · intro u msg hu hcl
    exact rotationLoop_other_step u time 0 2 keys keys₁ k none msg hsel hu hcl
  · intro u m0 m1 m2 hu0 hu1 hu2 hc0 hc1 hc2
    have hlen_keys : keys.length ≠ 0 := by
      intro h
      exact hkeys_ne (List.length_eq_zero.mp h)
    have step0 := rotationLoop_retry_step u time 0 2 keys keys₁ k none m0 hsel hu0 hc0
    have hp1len : (markKeyUnhealthy keys₁ k.name
        (if classifyError m0 = .rateLimited then "Rate limited" else "Invalid API key")).length =
        keys.length := by
      rw [markKeyUnhealthy_length, hlen₁]
    have hp1ne : markKeyUnhealthy keys₁ k.name
        (if classifyError m0 = .rateLimited then "Rate limited" else "Invalid API key") ≠ [] := by
      intro h
      rw [h] at hp1len
      exact hlen_keys hp1len.symm
    obtain ⟨k1, pool1', hsel1⟩ := selectKey_some_of_ne_nil _ hp1ne
    have step1 := rotationLoop_retry_step u time 1 1 _ pool1' k1 (some m0) m1 hsel1 hu1 hc1
    have hp1'len : pool1'.length = keys.length := by
      have h := selectKey_snd_length (markKeyUnhealthy keys₁ k.name
        (if classifyError m0 = .rateLimited then "Rate limited" else "Invalid API key"))
      rw [hsel1] at h
      exact h.trans hp1len
    have hp2ne : markKeyUnhealthy pool1' k1.name
        (if classifyError m1 = .rateLimited then "Rate limited" else "Invalid API key") ≠ [] := by
      intro h
      have h2 := markKeyUnhealthy_length pool1' k1.name
        (if classifyError m1 = .rateLimited then "Rate limited" else "Invalid API key")
      rw [h] at h2
      exact hlen_keys (hp1'len ▸ h2.symm)
    obtain ⟨k2, pool2', hsel2⟩ := selectKey_some_of_ne_nil _ hp2ne
    have step2 := rotationLoop_retry_step u time 2 0 _ pool2' k2 (some m1) m2 hsel2 hu2 hc2
    have e0 : generateWithRotation u time keys = rotationLoop u time 0 (2 + 1) keys none := rfl
    have e1 : rotationLoop u time (0 + 1) 2 (markKeyUnhealthy keys₁ k.name
          (if classifyError m0 = .rateLimited then "Rate limited" else "Invalid API key"))
          (some m0) =
        rotationLoop u time 1 (1 + 1) (markKeyUnhealthy keys₁ k.name
          (if classifyError m0 = .rateLimited then "Rate limited" else "Invalid API key"))
          (some m0) := rfl
    have e2 : rotationLoop u time (1 + 1) 1 (markKeyUnhealthy pool1' k1.name
          (if classifyError m1 = .rateLimited then "Rate limited" else "Invalid API key"))
          (some m1) =
        rotationLoop u time 2 (0 + 1) (markKeyUnhealthy pool1' k1.name
          (if classifyError m1 = .rateLimited then "Rate limited" else "Invalid API key"))
          (some m1) := rfl
    have e3 : rotationLoop u time (2 + 1) 0 (markKeyUnhealthy pool2' k2.name
          (if classifyError m2 = .rateLimited then "Rate limited" else "Invalid API key"))
          (some m2) =
        (.error m2, markKeyUnhealthy pool2' k2.name
          (if classifyError m2 = .rateLimited then "Rate limited" else "Invalid API key")) :=
      rotationLoop_exhaust u time (2 + 1) _ m2
    have total := (((((e0.trans step0).trans e1).trans step1).trans e2).trans step2).trans e3
    exact congrArg Prod.fst total

/-- Witness for C5 on a fresh three-credential pool: three quota failures
exhaust the attempts and surface the last error; an unclassified failure is
surfaced immediately with the pool untouched. -/
theorem C5_retry_classification_witness :
    (generateWithRotation (fun _ => .error "quota exceeded") (fun _ => 0)
        ([{ name := "primary" }, { name := "fallback1" }, { name := "fallback2" }] :
          List GeminiKey)).1 = .error "quota exceeded" ∧
    generateWithRotation (fun _ => .error "boom") (fun _ => 0)
        ([{ name := "primary" }, { name := "fallback1" }, { name := "fallback2" }] :
          List GeminiKey) =
      (.error "boom",
       [{ name := "primary" }, { name := "fallback1" }, { name := "fallback2" }]) :=
  ⟨(C5_retry_classification (fun _ => 0)
      [{ name := "primary" }, { name := "fallback1" }, { name := "fallback2" }]
      [{ name := "primary" }, { name := "fallback1" }, { name := "fallback2" }]
      { name := "primary" } (by decide)).2.2
      (fun _ => .error "quota exceeded") "quota exceeded" "quota exceeded" "quota exceeded"
      rfl rfl rfl (by decide) (by decide) (by decide),
   (C5_retry_classification (fun _ => 0)
      [{ name := "primary" }, { name := "fallback1" }, { name := "fallback2" }]
      [{ name := "primary" }, { name := "fallback1" }, { name := "fallback2" }]
      { name := "primary" } (by decide)).2.1
      (fun _ => .error "boom") "boom" rfl (by decide)⟩

/-! ### Exact-arithmetic bridge lemmas

The money arithmetic is defined on numerators/denominators (`mkRat`, integer
division) so concrete runs evaluate; these lemmas identify those definitions
with the textbook rational forms. -/

lemma qmul_eq_mul (a b : ℚ) : qmul a b = a * b := by
  rw [qmul, Rat.mkRat_eq_div]
  conv_rhs => rw [← Rat.num_div_den a, ← Rat.num_div_den b]
  rw [div_mul_div_comm]
  push_cast
  ring

lemma roundJS_eq_floor (q : ℚ) : roundJS q = ⌊q + 1 / 2⌋ := by
  have hden0 : (q.den : ℚ) ≠ 0 := Nat.cast_ne_zero.mpr q.den_nz
  have hnum : (q.num : ℚ) = q * q.den := (div_eq_iff hden0).mp (Rat.num_div_den q)
  have h : q + 1 / 2 = ((2 * q.num + (q.den : ℤ) : ℤ) : ℚ) / ((2 * q.den : ℕ) : ℚ) := by
    rw [eq_div_iff (by push_cast; exact mul_ne_zero two_ne_zero hden0)]
    push_cast [hnum]
    ring
  rw [h, Rat.floor_intCast_div_natCast, roundJS]
  push_cast
  ring_nf

lemma estimatedCost_eq (a : Analytics) : estimatedCost a = (a.costRaw : ℚ) / 100000 := by
  rw [estimatedCost, Rat.mkRat_eq_div]
  push_cast
  ring

lemma calculateCost_eq (tokens : Nat) :
    calculateCost tokens = ((tokens : ℚ) / 1000) * (1875 / 10000000) := by
  rw [calculateCost, Rat.mkRat_eq_div]
  push_cast
  ring

lemma warnThreshold_eq (cap : ℚ) : qmul cap (mkRat 8 10) = cap * (8 / 10) := by
  rw [qmul_eq_mul, Rat.mkRat_eq_div]
  norm_num

/-! ### Alert-dedup lemmas -/

lemma markerLive_setMarker_of_lt (ms : List (String × Nat)) (key : String) (e t : Nat)
    (h : t < e) : markerLive (setMarker ms key e) t key = true := by
  unfold setMarker
  split
  next hex =>
    rw [markerLive, List.any_eq_true]
    obtain ⟨p, hfind⟩ := Option.isSome_iff_exists.mp hex
    have hp := List.find?_some hfind
    have hpm := List.mem_of_find?_eq_some hfind
    simp only [decide_eq_true_eq] at hp
    refine ⟨(p.1, e), List.mem_map.mpr ⟨p, hpm, by simp [hp]⟩, by simp [hp, h]⟩
  next hex =>
    rw [markerLive, List.any_eq_true]
    exact ⟨(key, e), by simp, by simp [h]⟩

/-- C7: after each successful budget increment the threshold check fires —
spend at or above the cap raises a critical alert, spend at or above 80% of
the cap (but under it) raises a warning alert, spend under 80% raises nothing;
the alert decision of `trackRequest` is exactly this threshold check evaluated
on the post-increment ledger; and once an alert message has been delivered,
the same message is not delivered again within the hour-long life of its
dedup marker. -/
theorem C7_budget_alerts :
    (∀ (cap : ℚ) (env : AlertEnv) (now : Nat) (a : Analytics),
      (estimatedCost a ≥ cap →
        ∃ r, (checkBudgetAndAlert cap env now a).1 = some r ∧ r.1.kind = .critical) ∧
      (¬estimatedCost a ≥ cap → estimatedCost a ≥ cap * (8 / 10) →
        ∃ r, (checkBudgetAndAlert cap env now a).1 = some r ∧ r.1.kind = .warning) ∧
      (¬estimatedCost a ≥ cap * (8 / 10) →
        (checkBudgetAndAlert cap env now a).1 = none)) ∧
    (∀ (cap : ℚ) (env : AlertEnv) (now : Nat) (log : RequestLog) (a : Analytics),
      (trackRequest cap env now log a).1 =
        (checkBudgetAndAlert cap env now { a with
          requests := a.requests + 1
          tokens := a.tokens + log.tokens
          costRaw := a.costRaw + (roundJS (qmul log.cost 100000)).toNat
          tierAnonymous := a.tierAnonymous + (if log.tier = .anonymous then 1 else 0)
          tierAuthenticated := a.tierAuthenticated + (if log.tier = .authenticated then 1 else 0)
          users := bumpScore a.users log.userId }).1) ∧
    (∀ (env : AlertEnv) (now t' : Nat) (m : AlertMessage) (a a' : Analytics),
      sendSlackAlert env now m a = (true, a') → t' < now + 3600 →
      (sendSlackAlert env t' m a').1 = false) := by
  refine ⟨?_, ?_, ?_⟩
  · intro cap env now a
    refine ⟨?_, ?_, ?_⟩
    · intro h
      unfold checkBudgetAndAlert
      rw [if_pos h]
      exact ⟨_, rfl, rfl⟩
    · intro h1 h2
      unfold checkBudgetAndAlert
      rw [if_neg h1, if_pos (show estimatedCost a ≥ qmul cap (mkRat 8 10) by
        rw [warnThreshold_eq]; exact h2)]
      exact ⟨_, rfl, rfl⟩
    · intro h2
      have h1 : ¬estimatedCost a ≥ cap := by
        intro h
        apply h2
        have hest : (0 : ℚ) ≤ estimatedCost a := by
          rw [estimatedCost_eq]
          positivity
        linarith
      unfold checkBudgetAndAlert
      rw [if_neg h1, if_neg (show ¬estimatedCost a ≥ qmul cap (mkRat 8 10) by
        rw [warnThreshold_eq]; exact h2)]
  · intro cap env now log a
    rfl
  · intro env now t' m a a' h1 ht'
    unfold sendSlackAlert at h1 ⊢
    by_cases hw : env.webhookConfigured
    · simp only [hw, Bool.not_true, Bool.false_eq_true, if_false] at h1 ⊢
      by_cases hml : markerLive a.alertMarkers now (alertDedupKey env.day m)
      · rw [if_pos hml] at h1
        exact absurd (congrArg Prod.fst h1) (by simp)
      · rw [if_neg hml] at h1
        by_cases hf : env.fetchOk
        · rw [if_pos hf] at h1
          have ha' : a' = { a with
              alertMarkers := setMarker a.alertMarkers (alertDedupKey env.day m) (now + 3600) } :=
            (congrArg Prod.snd h1).symm
          have hlive : markerLive a'.alertMarkers t' (alertDedupKey env.day m) = true := by
            rw [ha']
            exact markerLive_setMarker_of_lt _ _ _ _ ht'
          rw [if_pos (by rw [hlive] : markerLive a'.alertMarkers t' (alertDedupKey env.day m) = true)]
        · rw [if_neg hf] at h1
          exact absurd (congrArg Prod.fst h1) (by simp)
    · simp only [hw] at h1
      exact absurd (congrArg Prod.fst h1) (by simp)

/-- Witness for C7: a ledger at $7.90 of a $10 cap takes one $0.50 request to
$8.40 (84%) and the threshold check fires a warning; a second delivery of the
same message 5 seconds after a successful one is suppressed by the marker. -/
theorem C7_budget_alerts_witness :
    (∃ r, (trackRequest 10 { webhookConfigured := true, fetchOk := true, day := "2025-01-01" } 0
        { timestamp := 0, userId := "u", tier := .anonymous, tokens := 3, cost := mkRat 1 2,
          model := "gemini-1.5-flash", keyUsed := "primary" }
        { costRaw := 790000 }).1 = some r ∧ r.1.kind = .warning) ∧
    (sendSlackAlert { webhookConfigured := true, fetchOk := true, day := "2025-01-01" } 5
        { kind := .warning, cap := 10, spend := mkRat 42 5 }
        (sendSlackAlert { webhookConfigured := true, fetchOk := true, day := "2025-01-01" } 0
          { kind := .warning, cap := 10, spend := mkRat 42 5 } {}).2).1 = false := by
  constructor
  · rw [C7_budget_alerts.2.1 10
      { webhookConfigured := true, fetchOk := true, day := "2025-01-01" } 0
      { timestamp := 0, userId := "u", tier := .anonymous, tokens := 3, cost := mkRat 1 2,
        model := "gemini-1.5-flash", keyUsed := "primary" }
      { costRaw := 790000 }]
    refine (C7_budget_alerts.1 10
      { webhookConfigured := true, fetchOk := true, day := "2025-01-01" } 0 _).2.1 ?_ ?_
    · decide
    · rw [← warnThreshold_eq]
      decide
  · exact C7_budget_alerts.2.2
      { webhookConfigured := true, fetchOk := true, day := "2025-01-01" } 0 5
      { kind := .warning, cap := 10, spend := mkRat 42 5 } {} _ (by decide) (by decide)

/-- C6 (amended): on a successful generation the recorded charge follows the
estimate formula — `tokens = ⌈(promptChars + responseChars) / 4⌉` and
`cost = tokens/1000 × 0.0001875` (the configured per-1K rate) — and the
upstream-reported exact token usage is ignored, not preferred: the handler's
entire output is unchanged when the upstream result differs only in its
reported usage. -/
theorem C6_recorded_charge (env env' : Env) (method : String) (headers : Headers)
    (w : World) (prompt : String) (result result' : GenResult) (keys' : List GeminiKey)
    (hm : method = "POST")
    (hne : prompt ≠ "")
    (hlen : ¬prompt.length > 32000)
    (hrl : rlCount w.rl (rlKeyOf (getUserIdentifier headers)) + 1 ≤
      tierLimit (getUserIdentifier headers).tier)
    (hbud : checkBudgetExceeded env.budgetCap w.budgetReadOk w.analytics.costRaw = false)
    (hrot : generateWithRotation env.upstream env.time w.keys = (.ok result, keys'))
    (hrot' : generateWithRotation env'.upstream env'.time w.keys = (.ok result', keys'))
    (htext : result'.text = result.text)
    (hmodel : result'.model = result.model)
    (hkey : result'.keyUsed = result.keyUsed)
    (hcap : env'.budgetCap = env.budgetCap) (halert : env'.alert = env.alert)
    (hnow : env'.now = env.now) (hreset : env'.reset = env.reset) :
    (∀ p t : Nat, ((estimateTokens p t : ℕ) : ℤ) = ⌈(((p : ℚ) + t) / 4 : ℚ)⌉) ∧
    (∀ t : Nat, calculateCost t = ((t : ℚ) / 1000) * (1875 / 10000000)) ∧
    (generateHandler env { method := method, headers := headers, body := some { prompt := some prompt } } w).2.analytics =
      (trackRequest env.budgetCap env.alert env.now
        { timestamp := env.now
          userId := (getUserIdentifier headers).userId
          tier := (getUserIdentifier headers).tier
          tokens := estimateTokens prompt.length result.text.length
          cost := calculateCost (estimateTokens prompt.length result.text.length)
          model := result.model
          keyUsed := result.keyUsed } w.analytics).2 ∧
    generateHandler env' { method := method, headers := headers, body := some { prompt := some prompt } } w =
      generateHandler env { method := method, headers := headers, body := some { prompt := some prompt } } w := by
  subst hm
  have hceil : ∀ p t : Nat, ((estimateTokens p t : ℕ) : ℤ) = ⌈(((p : ℚ) + t) / 4 : ℚ)⌉ := by
    intro p t
    have h1 : (((p : ℚ) + t) / 4 : ℚ) = (((p + t : ℕ) : ℤ) : ℚ) / ((4 : ℕ) : ℚ) := by
      push_cast
      ring
    have hy : ((-((p + t : ℕ) : ℤ) : ℤ) : ℚ) / ((4 : ℕ) : ℚ) =
        -((((p + t : ℕ) : ℤ) : ℚ) / ((4 : ℕ) : ℚ)) := by
      push_cast
      ring
    have key : ⌈(((p + t : ℕ) : ℤ) : ℚ) / ((4 : ℕ) : ℚ)⌉ =
        -((-((p + t : ℕ) : ℤ)) / ((4 : ℕ) : ℤ)) := by
      rw [← Rat.floor_intCast_div_natCast (-((p + t : ℕ) : ℤ)) 4, hy, Int.floor_neg, neg_neg]
    rw [h1, key, estimateTokens]
    push_cast [Int.natCast_div]
    omega
  have hsucc : (ratelimitLimit (tierLimit (getUserIdentifier headers).tier) env.reset
      (tierKeyStem (getUserIdentifier headers).tier) (getUserIdentifier headers).userId
      w.rl).1.success = true := by
    simp only [ratelimitLimit, decide_eq_true_eq]
    simpa [rlKeyOf] using hrl
  refine ⟨hceil, fun t => calculateCost_eq t, ?_, ?_⟩
  · simp only [generateHandler]
    rw [if_neg (by simp)]
    rw [if_neg hne, if_neg hlen]
    simp only [hsucc, Bool.not_true, Bool.false_eq_true, if_false, hbud, hrot]
  · have hsucc' : (ratelimitLimit (tierLimit (getUserIdentifier headers).tier) env'.reset
        (tierKeyStem (getUserIdentifier headers).tier) (getUserIdentifier headers).userId
        w.rl).1.success = true := by
      simp only [ratelimitLimit, decide_eq_true_eq]
      simpa [rlKeyOf] using hrl
    have hbud' : checkBudgetExceeded env'.budgetCap w.budgetReadOk w.analytics.costRaw = false := by
      rw [hcap]
      exact hbud
    simp only [generateHandler]
    rw [if_neg (by simp)]
    rw [if_neg hne, if_neg hlen]
    simp only [hsucc, hsucc', Bool.not_true, Bool.false_eq_true, if_false, hbud, hbud',
      hrot, hrot', htext, hmodel, hkey, hcap, halert, hnow, hreset]
    rw [if_neg (by simp)]
    rw [if_neg hne, if_neg hlen]

/-- Witness for C6 on a concrete run: prompt "abcd", upstream text "efgh"
with reported exact usage 999 tokens resp. no reported usage. -/
theorem C6_recorded_charge_witness :
    (∀ p t : Nat, ((estimateTokens p t : ℕ) : ℤ) = ⌈(((p : ℚ) + t) / 4 : ℚ)⌉) ∧
    (∀ t : Nat, calculateCost t = ((t : ℚ) / 1000) * (1875 / 10000000)) ∧
    (generateHandler
        { upstream := fun _ => .ok
            { text := "efgh"
              usage := { promptTokens := 10, completionTokens := 20, totalTokens := 999 } } }
        { method := "POST", headers := {}, body := some { prompt := some "abcd" } }
        { keys := [{ name := "primary" }] }).2.analytics =
      (trackRequest 10 {} 0
        { timestamp := 0
          userId := (getUserIdentifier {}).userId
          tier := (getUserIdentifier {}).tier
          tokens := estimateTokens "abcd".length "efgh".length
          cost := calculateCost (estimateTokens "abcd".length "efgh".length)
          model := "gemini-1.5-flash"
          keyUsed := "primary" } {}).2 ∧
    generateHandler { upstream := fun _ => .ok { text := "efgh" } }
        { method := "POST", headers := {}, body := some { prompt := some "abcd" } }
        { keys := [{ name := "primary" }] } =
      generateHandler
        { upstream := fun _ => .ok
            { text := "efgh"
              usage := { promptTokens := 10, completionTokens := 20, totalTokens := 999 } } }
        { method := "POST", headers := {}, body := some { prompt := some "abcd" } }
        { keys := [{ name := "primary" }] } :=
  C6_recorded_charge
    { upstream := fun _ => .ok
        { text := "efgh"
          usage := { promptTokens := 10, completionTokens := 20, totalTokens := 999 } } }
    { upstream := fun _ => .ok { text := "efgh" } }
    "POST" {} { keys := [{ name := "primary" }] } "abcd"
    { text := "efgh", model := "gemini-1.5-flash",
      usage := { promptTokens := 10, completionTokens := 20, totalTokens := 999 },
      keyUsed := "primary" }
    { text := "efgh", model := "gemini-1.5-flash", usage := {}, keyUsed := "primary" }
    [{ name := "primary", isHealthy := true, lastError := none, lastUsed := some 0,
       requestCount := 1 }]
    rfl (by decide) (by decide) (by decide) (by decide) rfl rfl
    rfl rfl rfl rfl rfl rfl rfl

/-- Counterexample to C6 as stated: with prompt "abcd" (4 chars) and response
"efgh" (4 chars) the upstream reports exactly 999 tokens, yet the recorded
token charge is the estimate 2 = ⌈8/4⌉, not the reported 999 — the exact
reported usage is not preferred. -/
theorem C6_counterexample :
    (generateHandler
        { upstream := fun _ => .ok
            { text := "efgh"
              usage := { promptTokens := 10, completionTokens := 20, totalTokens := 999 } } }
        { method := "POST", headers := {}, body := some { prompt := some "abcd" } }
        { keys := [{ name := "primary" }] }).2.analytics.tokens =
      estimateTokens 4 4 ∧
    estimateTokens 4 4 = 2 ∧ (2 : Nat) ≠ 999 := by
  refine ⟨?_, by decide, by decide⟩
  decide

/-- C1 (amended): a failed budget-ledger read is swallowed, not propagated —
`checkBudgetExceeded` catches the store error and returns `false`, and the
generate handler proceeds with generation as if the budget were not exceeded
(here: all the way to a 200), instead of surfacing a 503/500. -/
theorem C1_fail_open (env : Env) (method : String) (headers : Headers) (w : World)
    (prompt : String) (s : GenSuccess)
    (hm : method = "POST")
    (hne : prompt ≠ "")
    (hlen : ¬prompt.length > 32000)
    (hrl : rlCount w.rl (rlKeyOf (getUserIdentifier headers)) + 1 ≤
      tierLimit (getUserIdentifier headers).tier)
    (hread : w.budgetReadOk = false)
    (hkeys : w.keys ≠ [])
    (hup : env.upstream 0 = .ok s) :
    (∀ (cap : ℚ) (costRaw : Nat), checkBudgetExceeded cap false costRaw = false) ∧
    (generateHandler env
      { method := method, headers := headers, body := some { prompt := some prompt } }
      w).1.status = 200 := by
  subst hm
  refine ⟨fun _ _ => rfl, ?_⟩
  obtain ⟨k, keys₁, hsel⟩ := selectKey_some_of_ne_nil w.keys hkeys
  have hgen : generateWithRotation env.upstream env.time w.keys =
      (.ok { text := s.text, model := "gemini-1.5-flash", usage := s.usage, keyUsed := k.name },
       updateKey keys₁ k.name
         { k with lastUsed := some (env.time 0), requestCount := k.requestCount + 1,
                  isHealthy := true, lastError := none }) :=
    (rfl : generateWithRotation env.upstream env.time w.keys =
      rotationLoop env.upstream env.time 0 (2 + 1) w.keys none).trans
      (rotationLoop_success_step env.upstream env.time 0 2 w.keys keys₁ k none s hsel hup)
  have hsucc : (ratelimitLimit (tierLimit (getUserIdentifier headers).tier) env.reset
      (tierKeyStem (getUserIdentifier headers).tier) (getUserIdentifier headers).userId
      w.rl).1.success = true := by
    simp only [ratelimitLimit, decide_eq_true_eq]
    simpa [rlKeyOf] using hrl
  have hbud : checkBudgetExceeded env.budgetCap w.budgetReadOk w.analytics.costRaw = false := by
    rw [hread]
    rfl
  simp only [generateHandler]
  rw [if_neg (by simp)]
  rw [if_neg hne, if_neg hlen]
  simp only [hsucc, Bool.not_true, Bool.false_eq_true, if_false, hbud, hgen]

/-- Witness for C1: with the budget read failing, a fully valid request on a
fresh anonymous identity still answers 200. -/
theorem C1_fail_open_witness :
    checkBudgetExceeded 10 false 0 = false ∧
    (generateHandler { upstream := fun _ => .ok { text := "ok" } }
      { method := "POST", headers := {}, body := some { prompt := some "hello" } }
      { budgetReadOk := false, keys := [{ name := "primary" }] }).1.status = 200 := by
  have h := C1_fail_open { upstream := fun _ => .ok { text := "ok" } } "POST" {}
    { budgetReadOk := false, keys := [{ name := "primary" }] } "hello" { text := "ok" }
    rfl (by decide) (by decide) (by decide) rfl (by decide) rfl
  exact ⟨h.1 10 0, h.2⟩

/-- Counterexample to C1 as stated: the ledger stands at 1000 dollars of a 10
dollar cap, so a truthful read reports the budget exceeded; with the store
unreachable the read failure is converted into "not exceeded" and the request
is admitted and served with a 200 — no 503/500 is propagated. -/
theorem C1_counterexample :
    checkBudgetExceeded 10 true 100000000 = true ∧
    checkBudgetExceeded 10 false 100000000 = false ∧
    (generateHandler { upstream := fun _ => .ok { text := "ok" } }
      { method := "POST", headers := {}, body := some { prompt := some "hello" } }
      { budgetReadOk := false, analytics := { costRaw := 100000000 },
        keys := [{ name := "primary" }] }).1.status = 200 := by
  refine ⟨by decide, by decide, ?_⟩
  decide

/-- C2 (evaluation at the failing input): six successive generate requests by
a fresh anonymous caller (limit 5/day, window reset at 86400000 ms).  All five
first requests are admitted and the sixth is rejected with 429,
`RATE_LIMIT_EXCEEDED` and `Retry-After` 86400 — but the five admitted
responses report remaining 3, 2, 1, 0, −1 in body and headers (the limiter's
post-consumption remaining, minus one again), not 4, 3, 2, 1, 0. -/
theorem C2_remaining_off_by_one :
    generateRun { upstream := fun _ => .ok { text := "ok done" }, reset := 86400000 }
        { method := "POST", headers := {}, body := some { prompt := some "hello" } } 6
        { keys := [{ name := "primary" }] } =
      [{ status := 200, body := .genSuccess "ok done" "gemini-1.5-flash" 3 5 86400000,
         headerLimit := some "5", headerRemaining := some "3" },
       { status := 200, body := .genSuccess "ok done" "gemini-1.5-flash" 2 5 86400000,
         headerLimit := some "5", headerRemaining := some "2" },
       { status := 200, body := .genSuccess "ok done" "gemini-1.5-flash" 1 5 86400000,
         headerLimit := some "5", headerRemaining := some "1" },
       { status := 200, body := .genSuccess "ok done" "gemini-1.5-flash" 0 5 86400000,
         headerLimit := some "5", headerRemaining := some "0" },
       { status := 200, body := .genSuccess "ok done" "gemini-1.5-flash" (-1) 5 86400000,
         headerLimit := some "5", headerRemaining := some "-1" },
       { status := 429, body := .genError "Rate limit exceeded" "RATE_LIMIT_EXCEEDED" (some 86400),
         headerLimit := some "5", headerRemaining := some "0" }] := by
  set_option maxRecDepth 100000 in decide

/-! ### OAuth-state lemmas -/

lemma find_repl (l : List (String × String × Nat)) (state uri : String) (n t : Nat) :
    (l.map (fun p => if p.1 = state then (p.1, uri, n) else p)).find?
      (fun p => p.1 = state && t < p.2.2) =
    (if l.any (fun p => p.1 = state) && t < n then some (state, uri, n) else none) := by
  induction l with
  | nil => simp
  | cons p l ih =>
    by_cases hp : p.1 = state
    · by_cases ht : t < n
      · simp [hp, ht]
      · simp [hp, ht, ih]
    · have hd : (decide (p.1 = state)) = false := by simp [hp]
      rw [List.map_cons, if_neg hp, List.find?_cons_of_neg _ (by simp [hp]), ih, List.any_cons]
      rw [hd, Bool.false_or]

lemma find_append_state (l : List (String × String × Nat)) (state uri : String) (n t : Nat)
    (hnone : ∀ p ∈ l, p.1 ≠ state) :
    (l ++ [(state, uri, n)]).find? (fun p => p.1 = state && t < p.2.2) =
    (if t < n then some (state, uri, n) else none) := by
  induction l with
  | nil =>
    by_cases ht : t < n <;> simp [ht]
  | cons p l ih =>
    have hp : p.1 ≠ state := hnone p (List.mem_cons_self _ _)
    rw [List.cons_append, List.find?_cons_of_neg _ (by simp [hp])]
    exact ih (fun q hq => hnone q (List.mem_cons_of_mem _ hq))

lemma find_filter_ne (l : List (String × String × Nat)) (state : String) (t : Nat) :
    (l.filter (fun p => p.1 ≠ state)).find? (fun p => p.1 = state && t < p.2.2) = none := by
  rw [List.find?_eq_none]
  intro x hx
  have hne := List.of_mem_filter hx
  simp only [decide_eq_true_eq] at hne
  simp [hne]

lemma getState_storeState (st : OAuthStore) (state uri : String) (now t : Nat) :
    getState t state (storeState now state uri st) =
      (if t < now + 600 then some uri else none) := by
  unfold storeState getState
  by_cases hex : ((st.states.find? (fun p => p.1 = state)).isSome : Bool) = true
  · rw [if_pos hex]
    have hany : st.states.any (fun p => p.1 = state) = true := by
      obtain ⟨q, hfind⟩ := Option.isSome_iff_exists.mp hex
      rw [List.any_eq_true]
      exact ⟨q, List.mem_of_find?_eq_some hfind,
        List.find?_some (p := fun r : String × String × Nat => decide (r.1 = state)) hfind⟩
    simp only [find_repl, hany, Bool.true_and]
    by_cases ht : t < now + 600
    · simp [ht]
    · simp [ht]
  · rw [if_neg hex]
    have hnone : ∀ p ∈ st.states, p.1 ≠ state := by
      intro p hp
      have hfn : st.states.find? (fun p => p.1 = state) = none :=
        Option.not_isSome_iff_eq_none.mp (by simpa using hex)
      have := List.find?_eq_none.mp hfn p hp
      simpa using this
    simp only [find_append_state st.states state uri (now + 600) t hnone]
    by_cases ht : t < now + 600
    · simp [ht]
    · simp [ht]

/-- C8: an OAuth state nonce is consumed exactly once — after `storeState`,
the first (unexpired) `validateState` returns the stored redirect and deletes
the record, a second `validateState` finds nothing; and in the callback a
failed state validation answers the `invalid_state` error page without ever
reaching the token exchange. -/
theorem C8_oauth_state_single_use (st : OAuthStore) (state uri : String) (now now1 now2 : Nat)
    (huri : uri ≠ "")
    (hfresh : now1 < now + 600) :
    (validateState now1 state (storeState now state uri st)).1 = some uri ∧
    (∀ p ∈ (validateState now1 state (storeState now state uri st)).2.states, p.1 ≠ state) ∧
    (validateState now2 state (validateState now1 state (storeState now state uri st)).2).1 =
      none ∧
    (∀ (env : CallbackEnv) (code stateP : String) (st0 : OAuthStore),
      code ≠ "" → stateP ≠ "" →
      (validateState env.now stateP st0).1 = none →
      callbackHandler env { code := some code, state := some stateP } st0 =
        (.errorPage "invalid_state" "Invalid or expired state parameter",
         (validateState env.now stateP st0).2, false)) := by
  have hget : getState now1 state (storeState now state uri st) = some uri := by
    rw [getState_storeState]
    exact if_pos hfresh
  have hval1 : validateState now1 state (storeState now state uri st) =
      (some uri,
       { storeState now state uri st with
         states := (storeState now state uri st).states.filter (fun p => p.1 ≠ state) }) := by
    unfold validateState
    rw [hget]
    dsimp only
    rw [if_pos huri]
  refine ⟨?_, ?_, ?_, ?_⟩
  · rw [hval1]
  · rw [hval1]
    intro p hp
    have := List.of_mem_filter hp
    simpa using this
  · rw [hval1]
    unfold validateState getState
    rw [find_filter_ne]
  · intro env code stateP st0 hcode hstate hval
    unfold callbackHandler
    simp [truthyStr, hcode, hstate, hval]

/-- Witness for C8 at a concrete store: state "s1" stored for "/cli-callback",
consumed at t=10, refused at t=20; and a callback with an unknown state shows
the `invalid_state` page without exchanging the code. -/
theorem C8_oauth_state_single_use_witness :
    (validateState 10 "s1" (storeState 0 "s1" "/cli-callback" {})).1 = some "/cli-callback" ∧
    (validateState 20 "s1" (validateState 10 "s1" (storeState 0 "s1" "/cli-callback" {})).2).1 =
      none ∧
    callbackHandler
        { now := 99
          exchange := fun _ => .ok "tok"
          mkSession := fun _ => .ok ("sess", { userId := "github:123", username := "alice" }) }
        { code := some "c", state := some "s2" } {} =
      (.errorPage "invalid_state" "Invalid or expired state parameter", {}, false) := by
  have h := C8_oauth_state_single_use {} "s1" "/cli-callback" 0 10 20 (by decide) (by decide)
  exact ⟨h.1, h.2.2.1,
    h.2.2.2
      { now := 99
        exchange := fun _ => .ok "tok"
        mkSession := fun _ => .ok ("sess", { userId := "github:123", username := "alice" }) }
      "c" "s2" {} (by decide) (by decide) rfl⟩

end Rocket
